import Mathlib

/-!
Verification of `src/signalEX/accounts/signals.py`.

The module defines two Django signal handlers:
* `send_welcome_email`, registered with `@receiver(post_save, sender=User)`,
  which, when `created` is true, calls `send_mail` once with a fixed subject,
  a templated message containing the username, a fixed sender address, a
  one-element recipient list holding the user's email, and
  `fail_silently=False`;
* `notify_before_post_delete`, registered with `@receiver(pre_delete,
  sender=Post)`, which prints a single diagnostic line naming the post's
  title.

We embed the handlers shallowly: each handler is a pure function from its
inputs to the list of side effects it attempts (mail-send calls and output
lines), in the order the Python code performs them.  The Python parameter
`instance` is a Lean keyword, so it is named `inst` throughout.
-/

namespace SignalEX

/-- A user record, as consumed by the handler.  The handler reads only
`username` and `email`; the framework's user model carries further fields
(here represented by `first_name` and `last_name`), which the handler never
touches. -/
structure User where
  username : String
  email : String
  first_name : String
  last_name : String
deriving Repr, DecidableEq

/-- A post record.  The handler reads only `title`. -/
structure Post where
  title : String
deriving Repr, DecidableEq

/-- The argument record of one `send_mail(...)` call: the five keyword
arguments passed at `signals.py` lines 11-17. -/
structure MailCall where
  subject : String
  message : String
  from_email : String
  recipient_list : List String
  fail_silently : Bool
deriving Repr, DecidableEq

/-- The single `send_mail` call built at `signals.py` lines 11-17:
`subject="Welcome to our site!"`,
`message='Thank you for registering, {}!'.format(instance.username)`,
`from_email='from@example.com'`, `recipient_list=[instance.email]`,
`fail_silently=False`. -/
def welcomeMail (inst : User) : MailCall :=
  { subject := "Welcome to our site!"
    message := "Thank you for registering, " ++ inst.username ++ "!"
    from_email := "from@example.com"
    recipient_list := [inst.email]
    fail_silently := false }

/-- `send_welcome_email(sender, instance, created, **kwargs)`
(`signals.py` lines 8-17), as the list of mail-send calls it attempts:
`if created:` one `send_mail` call, else none. -/
def send_welcome_email (inst : User) (created : Bool) : List MailCall :=
  if created then [welcomeMail inst] else []

/-- `send_welcome_email` run against an explicit mail transport that may
fail: the handler simply calls the transport on its one call (when
`created`) and returns whatever the transport returns; it installs no
handler of its own around the call. -/
def send_welcome_email_exec (send_mail : MailCall → Except String Unit)
    (inst : User) (created : Bool) : Except String Unit :=
  if created then send_mail (welcomeMail inst) else pure ()

/-- One observable side effect of a handler: a mail-send attempt or a line
written to the diagnostic output stream. -/
inductive Effect
  | mail (c : MailCall)
  | line (s : String)
deriving Repr, DecidableEq

/-- Whether an effect is a mail-send attempt. -/
def Effect.isMail : Effect → Bool
  | Effect.mail _ => true
  | Effect.line _ => false

/-- `send_welcome_email` viewed in the common effect alphabet shared with
the other handler. -/
def send_welcome_email_effects (inst : User) (created : Bool) :
    List Effect :=
  (send_welcome_email inst created).map Effect.mail

/-- `notify_before_post_delete(sender, instance, **kwargs)`
(`signals.py` lines 19-22), as the list of side effects it performs: a
single `print(f"Post titled '{instance.title}' is about to be deleted.")`. -/
def notify_before_post_delete (inst : Post) : List Effect :=
  [Effect.line ("Post titled '" ++ inst.title ++ "' is about to be deleted.")]

/-- The signal kinds mentioned by the module's imports and decorators. -/
inductive SignalKind
  | post_save
  | pre_delete
  | post_delete
deriving Repr, DecidableEq

/-- A `@receiver(signal, sender=...)` registration. -/
structure Registration where
  signal : SignalKind
  sender : String
deriving Repr, DecidableEq

/-- The registration of `send_welcome_email`:
`@receiver(post_save, sender=User)` (`signals.py` line 7). -/
def welcome_registration : Registration :=
  { signal := SignalKind.post_save, sender := "User" }

/-- The registration of `notify_before_post_delete`:
`@receiver(pre_delete, sender=Post)` (`signals.py` line 19). -/
def notify_registration : Registration :=
  { signal := SignalKind.pre_delete, sender := "Post" }

/-- One step of the observable deletion sequence: a diagnostic line from a
pre-delete handler, or the removal of the record itself. -/
inductive DeleteEvent
  | diagnostic (s : String)
  | removal (title : String)
deriving Repr, DecidableEq

/-- Modelled from the spec: the host framework's deletion sequence for a
`Post` is not part of this repository; per the spec, pre-delete handlers
run synchronously strictly before the deletion completes, so deleting a
post first emits the diagnostic lines of the `pre_delete` handler and then
removes the record. -/
def delete_post (p : Post) : List DeleteEvent :=
  (notify_before_post_delete p).filterMap
    (fun e => match e with
      | Effect.line s => some (DeleteEvent.diagnostic s)
      | Effect.mail _ => none)
    ++ [DeleteEvent.removal p.title]

/-- Concrete user for witnesses: username "alice", email
"alice@example.com". -/
def aliceUser : User :=
  { username := "alice", email := "alice@example.com"
    first_name := "", last_name := "" }

/-- Concrete post for witnesses. -/
def helloPost : Post := { title := "Hello World" }

/-- A mail transport that always fails, for the error-propagation witness. -/
def failingTransport : MailCall → Except String Unit :=
  fun _ => Except.error "SMTPException"

end SignalEX

namespace SignalEX

/-- C1: with `created = True`, `send_welcome_email` attempts exactly one
mail-send call, its recipient list is exactly `[instance.email]`, and its
message body contains `instance.username` as a substring. -/
theorem welcome_created_sends_exactly_one (inst : User) :
    ∃ c, send_welcome_email inst true = [c] ∧
      c.recipient_list = [inst.email] ∧
      ∃ a b, c.message = a ++ inst.username ++ b := by
  refine ⟨welcomeMail inst, rfl, rfl, "Thank you for registering, ", "!", rfl⟩

/-- C2: with `created = False`, `send_welcome_email` attempts no mail-send
call at all. -/
theorem welcome_not_created_sends_nothing (inst : User) :
    send_welcome_email inst false = [] := rfl

/-- C3: for the concrete user alice, the one attempted mail has message
exactly "Thank you for registering, alice!" and recipient list exactly
["alice@example.com"]. -/
theorem welcome_alice_scenario :
    send_welcome_email aliceUser true =
      [{ subject := "Welcome to our site!"
         message := "Thank you for registering, alice!"
         from_email := "from@example.com"
         recipient_list := ["alice@example.com"]
         fail_silently := false }] := by
  decide

/-- C4: `notify_before_post_delete` emits exactly one diagnostic line, the
line contains the post's title, and for the title "Hello World" the line is
exactly "Post titled 'Hello World' is about to be deleted.". -/
theorem notify_emits_one_line_with_title (p : Post) :
    (∃ a b, notify_before_post_delete p =
        [Effect.line (a ++ p.title ++ b)]) ∧
      notify_before_post_delete helloPost =
        [Effect.line "Post titled 'Hello World' is about to be deleted."] := by
  exact ⟨⟨"Post titled '", "' is about to be deleted.", rfl⟩, by decide⟩

/-- C5: every mail-send call attempted by `send_welcome_email` passes
`fail_silently = false`, and the handler wraps the transport call in no
handler of its own: run against any transport, its result is exactly the
transport's result on the one call, so a transport error propagates. -/
theorem welcome_fail_silently_false_and_propagates (inst : User)
    (created : Bool) :
    (∀ c ∈ send_welcome_email inst created, c.fail_silently = false) ∧
      (∀ send_mail : MailCall → Except String Unit, created = true →
        send_welcome_email_exec send_mail inst created =
          send_mail (welcomeMail inst)) := by
  constructor
  · intro c hc
    cases created with
    | false => simp [send_welcome_email] at hc
    | true =>
      simp [send_welcome_email] at hc
      simp [hc, welcomeMail]
  · intro send_mail h
    subst h
    rfl

/-- C5 witness: at the concrete user alice with `created = true`, the one
call has `fail_silently = false`, and a transport that raises makes the
handler raise. -/
theorem welcome_fail_silently_false_and_propagates_witness :
    (welcomeMail aliceUser).fail_silently = false ∧
      send_welcome_email_exec failingTransport aliceUser true =
        Except.error "SMTPException" :=
  ⟨(welcome_fail_silently_false_and_propagates aliceUser true).1
      (welcomeMail aliceUser) (by simp [send_welcome_email]),
    ((welcome_fail_silently_false_and_propagates aliceUser true).2
      failingTransport rfl).trans rfl⟩

/-- C6: every mail-send call attempted by `send_welcome_email` has the
fixed sender "from@example.com" and recipient list exactly
`[instance.email]`, for every user and every value of `created`. -/
theorem welcome_fixed_sender_single_recipient (inst : User)
    (created : Bool) :
    ∀ c ∈ send_welcome_email inst created,
      c.from_email = "from@example.com" ∧
        c.recipient_list = [inst.email] := by
  intro c hc
  cases created with
  | false => simp [send_welcome_email] at hc
  | true =>
    simp [send_welcome_email] at hc
    simp [hc, welcomeMail]

/-- C6 witness: at the concrete user alice with `created = true`. -/
theorem welcome_fixed_sender_single_recipient_witness :
    (welcomeMail aliceUser).from_email = "from@example.com" ∧
      (welcomeMail aliceUser).recipient_list = ["alice@example.com"] :=
  welcome_fixed_sender_single_recipient aliceUser true
    (welcomeMail aliceUser) (by simp [send_welcome_email])

/-- C7: `notify_before_post_delete` has no side effect beyond the single
output line: its effect list is one line and contains no mail-send
attempt, for every input post. -/
theorem notify_no_other_side_effect (p : Post) :
    (notify_before_post_delete p).length = 1 ∧
      (notify_before_post_delete p).filter Effect.isMail = [] ∧
      ∃ s, notify_before_post_delete p = [Effect.line s] := by
  refine ⟨rfl, rfl, "Post titled '" ++ p.title ++ "' is about to be deleted.",
    rfl⟩

/-- C8: the pre-deletion handler is registered on `pre_delete`, not
`post_delete`, and in the framework's deletion sequence its diagnostic
line (which contains the title) occurs strictly before the removal
event. -/
theorem notify_line_precedes_removal (p : Post) :
    notify_registration.signal = SignalKind.pre_delete ∧
      notify_registration.signal ≠ SignalKind.post_delete ∧
      ∃ a b, delete_post p =
        [DeleteEvent.diagnostic (a ++ p.title ++ b),
          DeleteEvent.removal p.title] := by
  refine ⟨rfl, by decide, "Post titled '", "' is about to be deleted.", rfl⟩

/-- C9: every mail attempted by `send_welcome_email` has the subject
exactly "Welcome to our site!". -/
theorem welcome_subject_constant (inst : User) (created : Bool) :
    ∀ c ∈ send_welcome_email inst created,
      c.subject = "Welcome to our site!" := by
  intro c hc
  cases created with
  | false => simp [send_welcome_email] at hc
  | true =>
    simp [send_welcome_email] at hc
    simp [hc, welcomeMail]

/-- C9 witness: at the concrete user alice with `created = true`. -/
theorem welcome_subject_constant_witness :
    (welcomeMail aliceUser).subject = "Welcome to our site!" :=
  welcome_subject_constant aliceUser true (welcomeMail aliceUser)
    (by simp [send_welcome_email])

/-- C10: the handler is deterministic in the `created` flag, the username
and the email alone: two users agreeing on username and email produce
identical lists of mail-send calls for the same `created`, whatever their
other fields. -/
theorem welcome_depends_only_on_username_email (u₁ u₂ : User)
    (created : Bool) (hu : u₁.username = u₂.username)
    (he : u₁.email = u₂.email) :
    send_welcome_email u₁ created = send_welcome_email u₂ created := by
  cases created with
  | false => rfl
  | true => simp [send_welcome_email, welcomeMail, hu, he]

/-- C10 witness: two users sharing username and email but differing in
first and last name produce identical mail-send calls. -/
theorem welcome_depends_only_on_username_email_witness :
    send_welcome_email
        { username := "bob", email := "bob@example.com"
          first_name := "Bob", last_name := "Smith" } true =
      send_welcome_email
        { username := "bob", email := "bob@example.com"
          first_name := "Robert", last_name := "Jones" } true :=
  welcome_depends_only_on_username_email
    { username := "bob", email := "bob@example.com"
      first_name := "Bob", last_name := "Smith" }
    { username := "bob", email := "bob@example.com"
      first_name := "Robert", last_name := "Jones" }
    true rfl rfl

end SignalEX
